import Mathlib

/-
Verification of the doorman door-session manager.

Shallow embedding of the relevant parts of the source:
- src/door.rs      : launch, sysop_command, configure, nightly
- src/who.rs       : parse_docker_line, parse_docker, parse_podman_container, parse_podman
- src/container.rs : is_podman, is_rootless_podman, ContainerEngine::new
- src/cfg.rs       : the Door configuration record (nodes is an i8)

External effects (advisory file locks, directory operations, template
rendering/encoding, subprocess spawning, serde and chrono library calls) are
resolved by an explicit environment record of oracles, and every effectful
step is recorded in an event trace so that ordering claims can be stated.
Machine integers: the node counter in launch is an i8 in the source; its
increment is embedded with explicit wrap-around at 2^7 (release-build
semantics; debug builds abort at the same point instead of wrapping).
-/

namespace Doorman

/-- State of one advisory file lock as seen by a would-be acquirer:
free, held shared by n readers, or held exclusively. -/
inductive LockSt
  | free
  | shared (n : Nat)
  | exclusive
deriving DecidableEq

/-- fs4 try_lock_shared: non-blocking, succeeds unless an exclusive holder exists. -/
def tryLockShared : LockSt → Option LockSt
  | .free => some (.shared 1)
  | .shared n => some (.shared (n + 1))
  | .exclusive => none

/-- fs4 try_lock_exclusive: non-blocking, succeeds only when nobody holds the lock. -/
def tryLockExclusive : LockSt → Option LockSt
  | .free => some .exclusive
  | .shared _ => none
  | .exclusive => none

/-- Observable effects performed by the orchestrators, in program order. -/
inductive Event
  | createDirAll (path : String)
  | openLock (path : String)
  | tryShared (path : String) (ok : Bool)
  | tryExclusive (path : String) (ok : Bool)
  | blockExclusive (path : String)
  | unlock (path : String)
  | removeDirAll (path : String)
  | writeDos (file : String) (dir : String)
  | spawnRun (detached : Bool)
  | waitRun (code : Option Int)
  | execAttach (cid : String)
  | waitChild
deriving DecidableEq

/-- Error outcomes; one constructor per anyhow! / with_context site that the
embedded code paths can reach. -/
inductive Err
  | unknownDoor (d : String)
  | noCurrentUser
  | switchNotSysop
  | unknownUser (u : String)
  | engineFail
  | createDirFail (p : String)
  | openLockFail (p : String)
  | doorBusy (d : String)
  | allNodesBusy (d : String)
  | scanHung
  | removeDirFail (p : String)
  | renderFail (d : String)
  | writeDosFail (file : String) (dir : String)
  | spawnFail (d : String)
  | waitFail (d : String)
  | startFailedCode (d : String) (code : Int)
  | startFailedUnknown (d : String)
  | decodeFail
  | unlockFail
  | execFail
  | notSysop
  | notConfigured (command : String) (d : String)
  | doorBusySysop (d : String)
  | blockLockFail
  | childWaitFail (d : String)
deriving DecidableEq

/-- rundir.join(format!("disp.lock", door)) for the whole-door lock. -/
def doorLockPath (rundir doorName : String) : String :=
  rundir ++ "/" ++ doorName ++ ".lock"

/-- rundir.join(format!("disp.node.lock", door, node)) for one node slot. -/
def nodeLockPath (rundir doorName : String) (node : Int) : String :=
  rundir ++ "/" ++ doorName ++ "." ++ toString node ++ ".lock"

/-- rundir.join(format!("disp.node", door, node)): the node workspace. -/
def nodeRundirPath (rundir doorName : String) (node : Int) : String :=
  rundir ++ "/" ++ doorName ++ "." ++ toString node

/-- rundir.join(format!("disp.sysop", door)): the maintenance workspace. -/
def sysopRundirPath (rundir doorName : String) : String :=
  rundir ++ "/" ++ doorName ++ ".sysop"

/-- User record from cfg.rs. -/
structure UserT where
  uid : Nat
  username : String
  display_name : String
  is_sysop : Bool
deriving DecidableEq

/-- Door record from cfg.rs; nodes is an i8 in the source (any value in
[-128, 127] deserializes, default 1, no positivity validation). -/
structure DoorCfg where
  path : String
  nodes : Int
  launch : String
  configure : Option String
  nightly : Option String

/-- The slice of Config that door.rs consults. -/
structure Config where
  rundir : String
  dosemu_container : String
  doors : String → Option DoorCfg

/-- Arguments of the launch subcommand. -/
structure LaunchArgs where
  door : String
  user : Option String
  raw : Bool

/-- Arguments of the configure / nightly subcommands. -/
structure SysopArgs where
  door : String
  nowait : Bool

/-- Environment of oracles resolving every external call the orchestrators
make. Lock state is per path; filesystem and subprocess outcomes are fixed
for one embedded invocation. -/
structure Env where
  currentUser : Option UserT
  getUser : String → Option UserT
  engine : Option String
  createDirOk : String → Bool
  openLockOk : String → Bool
  locks : String → LockSt
  dirExists : String → Bool
  removeDirOk : String → Bool
  renderOk : String → Bool
  writeDosOk : String → String → Bool
  spawnOk : Bool
  waitOk : Bool
  runExitCode : Option Int
  runStdout : Option String
  unlockOk : Bool
  execOk : Bool
  childWaitOk : Bool
  blockLockOk : Bool

/-- Sequence one effectful step: emit its events; on success continue with k
(whose trace follows), on failure stop with error e and just this step's
events. -/
def stepThen (ev : List Event) (ok : Bool) (e : Err)
    (k : Except Err Unit × List Event) : Except Err Unit × List Event :=
  if ok then (k.1, ev ++ k.2) else (Except.error e, ev)

/-- Two's-complement wrap-around of an i8 increment result (release builds). -/
def wrap8 (x : Int) : Int := (x + 128) % 256 - 128

/-- Outcome of the node-scanning loop of launch. -/
inductive Scan
  | found (node : Int) (tr : List Event)
  | exhausted (tr : List Event)
  | openFail (path : String) (tr : List Event)
  | fuelOut (tr : List Event)
deriving DecidableEq

/-- The while loop of launch (door.rs lines 74-87) up to the first successful
exclusive node-lock claim: while node is at most door.nodes, open the node's
lock file and try a non-blocking exclusive lock; on failure increment the i8
counter (with wrap-around) and continue. The fuel bound 300 exceeds the 256
distinct i8 values, so with a static environment fuelOut marks a scan that
never returns (all reachable lock files busy forever). -/
def scanNodes (env : Env) (rundir doorName : String) (nodes : Int) :
    Nat → Int → Scan
  | 0, _ => .fuelOut []
  | fuel + 1, node =>
    if node ≤ nodes then
      let p := nodeLockPath rundir doorName node
      if env.openLockOk p then
        match tryLockExclusive (env.locks p) with
        | some _ => .found node [.openLock p, .tryExclusive p true]
        | none =>
          match scanNodes env rundir doorName nodes fuel (wrap8 (node + 1)) with
          | .found n tr => .found n (.openLock p :: .tryExclusive p false :: tr)
          | .exhausted tr => .exhausted (.openLock p :: .tryExclusive p false :: tr)
          | .openFail q tr => .openFail q (.openLock p :: .tryExclusive p false :: tr)
          | .fuelOut tr => .fuelOut (.openLock p :: .tryExclusive p false :: tr)
      else .openFail p [.openLock p]
    else .exhausted []

/-- Body of the launch loop after a node was claimed (door.rs lines 89-181):
clean and recreate the node workspace, write door.sys, render the launch
template, write doorman.bat, spawn the detached container, wait for it,
require exit code exactly 0, decode the container id, unlock the node lock,
then exec the interactive client. -/
def launchBody (cfg : Config) (env : Env) (args : LaunchArgs) (door : DoorCfg)
    (user : UserT) (node : Int) : Except Err Unit × List Event :=
  let nd := nodeRundirPath cfg.rundir args.door node
  let np := nodeLockPath cfg.rundir args.door node
  let afterWrites :=
    stepThen [.spawnRun true] env.spawnOk (.spawnFail args.door)
      (if env.waitOk then
        match env.runExitCode with
        | some c =>
          if c = 0 then
            match env.runStdout with
            | some cid =>
              stepThen [.waitRun (some 0), .unlock np] env.unlockOk .unlockFail
                (stepThen [.execAttach cid] env.execOk .execFail (.ok (), []))
            | none => (.error .decodeFail, [.waitRun (some 0)])
          else (.error (.startFailedCode args.door c), [.waitRun (some c)])
        | none => (.error (.startFailedUnknown args.door), [.waitRun none])
      else (.error (.waitFail args.door), []))
  let afterRender :=
    stepThen [.writeDos "doorman.bat" nd] (env.writeDosOk "doorman.bat" nd)
      (.writeDosFail "doorman.bat" nd) afterWrites
  let afterFirstWrite :=
    if env.renderOk door.launch then afterRender
    else (.error (.renderFail args.door), [])
  let afterCreate :=
    stepThen [.writeDos "door.sys" nd] (env.writeDosOk "door.sys" nd)
      (.writeDosFail "door.sys" nd) afterFirstWrite
  let afterClean :=
    stepThen [.createDirAll nd] (env.createDirOk nd) (.createDirFail nd) afterCreate
  if env.dirExists nd then
    stepThen [.removeDirAll nd] (env.removeDirOk nd) (.removeDirFail nd) afterClean
  else afterClean

/-- door.rs launch: resolve door and user (optional sysop-only user switch),
resolve the container engine, create the rundir, take the door lock shared
(non-blocking; failure means maintenance is in progress), scan for a free
node, then run the claimed node's body; no free node means all nodes busy. -/
def launch (cfg : Config) (env : Env) (args : LaunchArgs) :
    Except Err Unit × List Event :=
  match cfg.doors args.door with
  | none => (.error (.unknownDoor args.door), [])
  | some door =>
    match env.currentUser with
    | none => (.error .noCurrentUser, [])
    | some user0 =>
      let userRes : Except Err UserT :=
        match args.user with
        | none => .ok user0
        | some su =>
          if user0.is_sysop then
            match env.getUser su with
            | some u => .ok u
            | none => .error (.unknownUser su)
          else .error .switchNotSysop
      match userRes with
      | .error e => (.error e, [])
      | .ok user =>
        match env.engine with
        | none => (.error .engineFail, [])
        | some _ep =>
          stepThen [.createDirAll cfg.rundir] (env.createDirOk cfg.rundir)
            (.createDirFail cfg.rundir)
            (let dlp := doorLockPath cfg.rundir args.door
             if env.openLockOk dlp then
               match tryLockShared (env.locks dlp) with
               | none =>
                 (.error (.doorBusy args.door),
                   [.openLock dlp, .tryShared dlp false])
               | some _ =>
                 match scanNodes env cfg.rundir args.door door.nodes 300 1 with
                 | .found n tr =>
                   let body := launchBody cfg env args door user n
                   (body.1, [.openLock dlp, .tryShared dlp true] ++ tr ++ body.2)
                 | .exhausted tr =>
                   (.error (.allNodesBusy args.door),
                     [.openLock dlp, .tryShared dlp true] ++ tr)
                 | .openFail p tr =>
                   (.error (.openLockFail p),
                     [.openLock dlp, .tryShared dlp true] ++ tr)
                 | .fuelOut tr =>
                   (.error .scanHung, [.openLock dlp, .tryShared dlp true] ++ tr)
             else (.error (.openLockFail dlp), [.openLock dlp]))

/-- door.rs sysop_command: require a sysop caller, require a configured
template, resolve the engine, create the rundir, lock the door exclusively
(non-blocking under nowait, else blocking), stage the sysop workspace, write
doorman.bat from the raw template, spawn the attached container, unlock the
door, then wait for the child. -/
def sysop_command (cfg : Config) (env : Env) (args : SysopArgs) (door : DoorCfg)
    (command : String) (template : Option String) :
    Except Err Unit × List Event :=
  match env.currentUser with
  | none => (.error .noCurrentUser, [])
  | some user =>
    if user.is_sysop then
      match template with
      | none => (.error (.notConfigured command args.door), [])
      | some _tmpl =>
        match env.engine with
        | none => (.error .engineFail, [])
        | some _ep =>
          stepThen [.createDirAll cfg.rundir] (env.createDirOk cfg.rundir)
            (.createDirFail cfg.rundir)
            (let dlp := doorLockPath cfg.rundir args.door
             if env.openLockOk dlp then
               let sd := sysopRundirPath cfg.rundir args.door
               let afterClean :=
                 stepThen [.writeDos "doorman.bat" sd] (env.writeDosOk "doorman.bat" sd)
                   (.writeDosFail "doorman.bat" sd)
                   (stepThen [.spawnRun false] env.spawnOk (.spawnFail args.door)
                     (stepThen [.unlock dlp] env.unlockOk .unlockFail
                       (stepThen [.waitChild] env.childWaitOk
                         (.childWaitFail args.door) (.ok (), []))))
               let staged :=
                 stepThen [.createDirAll sd] (env.createDirOk sd)
                   (.createDirFail sd) afterClean
               let rest :=
                 if env.dirExists sd then
                   stepThen [.removeDirAll sd] (env.removeDirOk sd)
                     (.removeDirFail sd) staged
                 else staged
               if args.nowait then
                 match tryLockExclusive (env.locks dlp) with
                 | none =>
                   (.error (.doorBusySysop args.door),
                     [.openLock dlp, .tryExclusive dlp false])
                 | some _ =>
                   (rest.1, [.openLock dlp, .tryExclusive dlp true] ++ rest.2)
               else
                 stepThen [.openLock dlp, .blockExclusive dlp] env.blockLockOk
                   .blockLockFail rest
             else (.error (.openLockFail dlp), [.openLock dlp]))
    else (.error .notSysop, [])

/-- door.rs configure: look up the door, then run the sysop command with the
configure template. -/
def configure (cfg : Config) (env : Env) (args : SysopArgs) :
    Except Err Unit × List Event :=
  match cfg.doors args.door with
  | none => (.error (.unknownDoor args.door), [])
  | some door => sysop_command cfg env args door "configure" door.configure

/-- door.rs nightly: look up the door, then run the sysop command with the
nightly template. -/
def nightly (cfg : Config) (env : Env) (args : SysopArgs) :
    Except Err Unit × List Event :=
  match cfg.doors args.door with
  | none => (.error (.unknownDoor args.door), [])
  | some door => sysop_command cfg env args door "nightly" door.nightly

/-- Outcome of code that can panic (unwrap on None), fail recoverably
(a Result Err), or succeed. -/
inductive PRes (α : Type)
  | panic
  | err
  | ok (a : α)
deriving DecidableEq

/-- The record who.rs reconstructs for one session container. The creation
time is an abstract instant (chrono is external). -/
structure WhoNode where
  container_id : String
  user : String
  door : String
  node : Option Int
  command : Option String
  since : Int
deriving DecidableEq

/-- Deserialized shape of one docker ps --format=json line (who.rs DockerPS):
labels arrive as one comma-joined string. -/
structure DockerPS where
  container_id : String
  created_str : String
  labels : String

/-- Deserialized shape of one podman ps --format=json entry (who.rs
PodmanPS): labels arrive as an optional map, here an association list. -/
structure PodmanPS where
  container_id : String
  created_ts : Int
  labels : Option (List (String × String))

/-- Rust str::to_uppercase as used on engine version strings, realized
character-wise over the char list (the inputs of interest are ASCII). -/
def strUpper (s : String) : String := String.mk (s.data.map Char.toUpper)

/-- Rust str::starts_with, realized over the char lists. -/
def strStarts (s p : String) : Bool := p.data.isPrefixOf s.data

/-- Rust str::split on a single separator character, realized over the char
list: splitting the empty string yields one empty piece, like Rust. -/
def splitChar (sep : Char) : List Char → List (List Char)
  | [] => [[]]
  | c :: rest =>
    let r := splitChar sep rest
    if c = sep then [] :: r
    else
      match r with
      | [] => [[c]]
      | g :: gs => (c :: g) :: gs

/-- Rust str::split(",") over a label string, as a list of strings. -/
def splitComma (s : String) : List String := (splitChar ',' s.data).map String.mk

/-- The key half and optional value half of splitn(2, "=") on a label: the
part before the first equals sign, and the rest if any equals sign exists. -/
def splitFirstEq : List Char → List Char × Option (List Char)
  | [] => ([], none)
  | c :: rest =>
    if c = '=' then ([], some rest)
    else
      match splitFirstEq rest with
      | (k, v) => (c :: k, v)

/-- Digits of a decimal numeral; none when empty or any character is not an
ASCII digit. -/
def digitsToNat : List Char → Option Nat
  | [] => none
  | cs =>
    if cs.all Char.isDigit then
      some (cs.foldl (fun acc c => acc * 10 + (c.toNat - 48)) 0)
    else none

/-- Rust str::parse into i8: optional sign, one or more digits, value within
[-128, 127]; none on any other input. -/
def parse_i8 (s : String) : Option Int :=
  match s.data with
  | '+' :: rest =>
    match digitsToNat rest with
    | some n => if n ≤ 127 then some (n : Int) else none
    | none => none
  | '-' :: rest =>
    match digitsToNat rest with
    | some n => if n ≤ 128 then some (-(n : Int)) else none
    | none => none
  | cs =>
    match digitsToNat cs with
    | some n => if n ≤ 127 then some (n : Int) else none
    | none => none

/-- who.rs split_docker_label: split at the first equals sign; a label with
no equals sign maps to the empty value. -/
def split_docker_label (label : String) : String × String :=
  match splitFirstEq label.data with
  | (k, some v) => (String.mk k, String.mk v)
  | (k, none) => (String.mk k, "")

/-- Accumulator of the label loop in parse_docker_line. -/
structure LabelScan where
  user : Option String
  door : Option String
  node : Option Int
  command : Option String
deriving DecidableEq

/-- The for loop of parse_docker_line over the comma-split labels: later
occurrences of a key overwrite earlier ones; a doorman.node value that does
not parse as an i8 is unwrapped and panics. -/
def scanDockerLabels : List String → LabelScan → PRes LabelScan
  | [], acc => .ok acc
  | l :: rest, acc =>
    let kv := split_docker_label l
    if kv.1 = "doorman.user" then
      scanDockerLabels rest { acc with user := some kv.2 }
    else if kv.1 = "doorman.door" then
      scanDockerLabels rest { acc with door := some kv.2 }
    else if kv.1 = "doorman.node" then
      match parse_i8 kv.2 with
      | some n => scanDockerLabels rest { acc with node := some n }
      | none => .panic
    else if kv.1 = "doorman.command" then
      scanDockerLabels rest { acc with command := some kv.2 }
    else scanDockerLabels rest acc

/-- who.rs parse_docker_line on one already-deserialized entry. dateOf is the
external chrono parse of the CreatedAt string (none on failure, which the
question mark operator turns into a recoverable error). An entry whose
labels lack doorman.user or doorman.door is a recoverable error. -/
def parse_docker_line (dateOf : String → Option Int) (p : DockerPS) :
    PRes WhoNode :=
  match scanDockerLabels (splitComma p.labels) ⟨none, none, none, none⟩ with
  | .panic => .panic
  | .err => .err
  | .ok ls =>
    match dateOf p.created_str with
    | none => .err
    | some since =>
      match ls.user, ls.door with
      | some u, some d => .ok ⟨p.container_id, u, d, ls.node, ls.command, since⟩
      | some _, none => .err
      | none, _ => .err

/-- who.rs parse_docker over the output lines; each line is given by its
serde result (none: the line did not deserialize, so parse_docker_line
errored and the line is skipped). Recoverable per-line errors are skipped;
a panic aborts everything. -/
def parse_docker (dateOf : String → Option Int) :
    List (Option DockerPS) → PRes (List WhoNode)
  | [] => .ok []
  | none :: rest => parse_docker dateOf rest
  | some p :: rest =>
    match parse_docker_line dateOf p with
    | .panic => .panic
    | .err => parse_docker dateOf rest
    | .ok n =>
      match parse_docker dateOf rest with
      | .panic => .panic
      | .err => .err
      | .ok ns => .ok (n :: ns)

/-- who.rs parse_podman_container. The labels Option is unwrapped first (a
missing labels object panics); the chrono from_timestamp result is unwrapped
next (an unrepresentable timestamp panics, fromTs is the external chrono
call); only then are the user and door keys required, and in the success
branch a doorman.node value that does not parse as an i8 panics. -/
def parse_podman_container (fromTs : Int → Option Int) (c : PodmanPS) :
    PRes WhoNode :=
  match c.labels with
  | none => .panic
  | some labels =>
    match fromTs c.created_ts with
    | none => .panic
    | some since =>
      match List.lookup "doorman.user" labels, List.lookup "doorman.door" labels with
      | some u, some d =>
        match List.lookup "doorman.node" labels with
        | some nv =>
          match parse_i8 nv with
          | some n =>
            .ok ⟨c.container_id, u, d, some n,
              List.lookup "doorman.command" labels, since⟩
          | none => .panic
        | none =>
          .ok ⟨c.container_id, u, d, none,
            List.lookup "doorman.command" labels, since⟩
      | some _, none => .err
      | none, _ => .err

/-- The for loop of who.rs parse_podman: recoverable per-entry errors are
skipped, a panic aborts everything. -/
def parse_podman_list (fromTs : Int → Option Int) :
    List PodmanPS → PRes (List WhoNode)
  | [] => .ok []
  | c :: rest =>
    match parse_podman_container fromTs c with
    | .panic => .panic
    | .err => parse_podman_list fromTs rest
    | .ok n =>
      match parse_podman_list fromTs rest with
      | .panic => .panic
      | .err => .err
      | .ok ns => .ok (n :: ns)

/-- who.rs parse_podman; none stands for a whole-output serde failure, which
is the recoverable error that makes parse_ps fall back to the docker shape. -/
def parse_podman (fromTs : Int → Option Int) :
    Option (List PodmanPS) → PRes (List WhoNode)
  | none => .err
  | some cs => parse_podman_list fromTs cs

/-- Oracles for container.rs: the stdout of running a candidate engine binary
with the version flag or with info --format=json (none: the command failed to
run or its output was not UTF-8), the external serde parse of the info JSON
down to host.security.rootless, and the PATH probes. -/
structure DetectEnv where
  versionOut : String → Option String
  infoOut : String → Option String
  parseInfo : String → Option Bool
  whichPodman : Option String
  whichDocker : Option String

/-- container.rs is_podman: run the binary with the version flag and report
whether the uppercased stdout starts with the podman prefix; running or
decoding failures are errors. -/
def is_podman (env : DetectEnv) (path : String) : Except Unit Bool :=
  match env.versionOut path with
  | none => .error ()
  | some s => .ok (strStarts (strUpper s) "PODMAN ")

/-- container.rs is_rootless_podman: a non-podman engine is not rootless; for
podman, run info --format=json and parse host.security.rootless, and any
running, decoding or parse failure is an error. -/
def is_rootless_podman (env : DetectEnv) (path : String) : Except Unit Bool :=
  match is_podman env path with
  | .error e => .error e
  | .ok false => .ok false
  | .ok true =>
    match env.infoOut path with
    | none => .error ()
    | some s =>
      match env.parseInfo s with
      | none => .error ()
      | some b => .ok b

/-- The engine record container.rs constructs. -/
structure ContainerEngine where
  path : String
  rootless_podman : Bool
deriving DecidableEq

/-- container.rs ContainerEngine::new: resolve the engine path from the
explicit config, else probe PATH for podman then docker, unwrapping (panic)
when both probes fail; then take the rootless flag from the explicit config,
else run rootless detection and unwrap its result (panic on any detection
error). -/
def ContainerEngine.new (env : DetectEnv) (engine_path : Option String)
    (rootless_podman : Option Bool) : PRes ContainerEngine :=
  match (match engine_path with
         | some p => some p
         | none =>
           match env.whichPodman with
           | some p => some p
           | none => env.whichDocker) with
  | none => .panic
  | some path =>
    match rootless_podman with
    | some b => .ok ⟨path, b⟩
    | none =>
      match is_rootless_podman env path with
      | .ok b => .ok ⟨path, b⟩
      | .error _ => .panic

/-- Expected trace of k failed node claims starting at node index s: for each
index, the lock file is opened and the non-blocking exclusive attempt fails. -/
def ascFail (rundir doorName : String) : Nat → Int → List Event
  | 0, _ => []
  | k + 1, s =>
    .openLock (nodeLockPath rundir doorName s)
      :: .tryExclusive (nodeLockPath rundir doorName s) false
      :: ascFail rundir doorName k (s + 1)

/-- A sysop user, for concrete runs. -/
def userS : UserT := ⟨1000, "alice", "Alice", true⟩

/-- A non-sysop user, for concrete runs. -/
def userN : UserT := ⟨1001, "bob", "Bob", false⟩

/-- A door with two nodes and a configure template but no nightly template. -/
def doorA : DoorCfg := ⟨"/doors/lord", 2, "LORD.BAT", some "CONFIG.EXE", none⟩

/-- A door whose deserialized node count is zero. -/
def doorZ : DoorCfg := ⟨"/doors/tw", 0, "TW.BAT", none, some "NIGHT.BAT"⟩

/-- A door with the maximum i8 node count. -/
def door127 : DoorCfg := ⟨"/doors/big", 127, "BIG.BAT", none, none⟩

/-- A concrete configuration holding the three test doors. -/
def cfgA : Config :=
  ⟨"run", "img",
    fun d =>
      if d = "lord" then some doorA
      else if d = "tw" then some doorZ
      else if d = "big" then some door127
      else none⟩

/-- Launch arguments for the two-node door. -/
def argsLord : LaunchArgs := ⟨"lord", none, false⟩

/-- Launch arguments for the zero-node door. -/
def argsTw : LaunchArgs := ⟨"tw", none, false⟩

/-- Launch arguments for the 127-node door. -/
def argsBig : LaunchArgs := ⟨"big", none, false⟩

/-- Sysop-command arguments for the two-node door with the no-wait flag. -/
def sargsLordNW : SysopArgs := ⟨"lord", true⟩

/-- An environment where every external step succeeds and every lock is free. -/
def baseEnv : Env :=
  { currentUser := some userS
    getUser := fun _ => none
    engine := some "/usr/bin/podman"
    createDirOk := fun _ => true
    openLockOk := fun _ => true
    locks := fun _ => .free
    dirExists := fun _ => false
    removeDirOk := fun _ => true
    renderOk := fun _ => true
    writeDosOk := fun _ _ => true
    spawnOk := true
    waitOk := true
    runExitCode := some 0
    runStdout := some "abc123"
    unlockOk := true
    execOk := true
    childWaitOk := true
    blockLockOk := true }

/-- Every lock except the lord door lock is held exclusively. -/
def envAllBusy : Env :=
  { baseEnv with
    locks := fun p => if p = doorLockPath "run" "lord" then .free else .exclusive }

/-- Every lock is held exclusively (maintenance holds the door lock). -/
def envMaint : Env := { baseEnv with locks := fun _ => .exclusive }

/-- Every lock is held shared (a player holds the door lock). -/
def envPlayers : Env := { baseEnv with locks := fun _ => .shared 1 }

/-- All in-range node locks of the 127-node door are held exclusively; only
the door lock and the out-of-range node slot reached by i8 wrap-around are
free. -/
def env127 : Env :=
  { baseEnv with
    locks := fun p =>
      if p = doorLockPath "run" "big" then .free
      else if p = nodeLockPath "run" "big" (-128) then .free
      else .exclusive }

/-- Like baseEnv, but every workspace directory already exists. -/
def envStale : Env := { baseEnv with dirExists := fun _ => true }

/-- Like baseEnv, but the container-start subprocess exits with code 5. -/
def envExit5 : Env := { baseEnv with runExitCode := some 5 }

/-- Like baseEnv, but the container-start subprocess exit code is unknown. -/
def envExitUnknown : Env := { baseEnv with runExitCode := none }

/-- Like baseEnv, but the container-start stdout is not decodable UTF-8. -/
def envBadStdout : Env := { baseEnv with runStdout := none }

/-- Like baseEnv, but the current user is not a sysop. -/
def envNonSysop : Env := { baseEnv with currentUser := some userN }

/-- A podman listing entry with no labels object at all. -/
def podNoLabels : PodmanPS := ⟨"c1", 0, none⟩

/-- A podman listing entry whose labels lack the doorman.user key. -/
def podNoUser : PodmanPS := ⟨"c2", 7, some [("doorman.door", "lord")]⟩

/-- A docker listing entry whose labels lack the doorman.user key. -/
def dockNoUser : DockerPS :=
  ⟨"d1", "2024-01-01 00:00:00 +0000 UTC", "doorman.door=lord,doorman.node=2"⟩

/-- The identity timestamp conversion, standing in for chrono on in-range
epoch seconds. -/
def tsId : Int → Option Int := fun t => some t

/-- Detection oracles for a podman binary whose info output fails to parse. -/
def detPodmanBadInfo : DetectEnv :=
  ⟨fun _ => some "podman version 4.3.1", fun _ => some "this is not json",
    fun _ => none, some "/usr/bin/podman", none⟩

/-- Detection oracles for a binary whose version output starts with neither
engine prefix. -/
def detMystery : DetectEnv :=
  ⟨fun _ => some "mystery-engine 1.0", fun _ => none, fun _ => none,
    none, none⟩

/-- Incrementing an i8 that stays in range does not wrap. -/
theorem wrap8_eq_self {x : Int} (h1 : -128 ≤ x) (h2 : x ≤ 127) : wrap8 x = x := by
  unfold wrap8
  have h : (x + 128) % 256 = x + 128 := Int.emod_eq_of_lt (by omega) (by omega)
  omega

/-- When every node in range up to m is busy except m itself, which is free,
the scan walks ascending from start and claims m, recording one failed
attempt per lower index. Requires a node count of at most 126 so the i8
counter never wraps. -/
theorem scanNodes_found (env : Env) (r d : String) (nodes m : Int)
    (hm1 : 1 ≤ m) (hmn : m ≤ nodes) (hn : nodes ≤ 126)
    (hopen : ∀ i : Int, 1 ≤ i → i ≤ m → env.openLockOk (nodeLockPath r d i) = true)
    (hbusy : ∀ i : Int, 1 ≤ i → i < m →
      tryLockExclusive (env.locks (nodeLockPath r d i)) = none)
    (hfree : env.locks (nodeLockPath r d m) = .free) :
    ∀ (fuel : Nat) (start : Int), 1 ≤ start → start ≤ m → (m - start).toNat < fuel →
      scanNodes env r d nodes fuel start =
        .found m (ascFail r d (m - start).toNat start ++
          [.openLock (nodeLockPath r d m), .tryExclusive (nodeLockPath r d m) true]) := by
  intro fuel
  induction fuel with
  | zero => intro start _ _ h3; omega
  | succ f ih =>
    intro start h1 h2 h3
    rw [scanNodes]
    rw [if_pos (show start ≤ nodes by omega)]
    simp only [hopen start h1 h2, if_true]
    by_cases hsm : start = m
    · subst hsm
      rw [hfree]
      have h0 : (start - start).toNat = 0 := by omega
      simp [tryLockExclusive, h0, ascFail]
    · have hlt : start < m := by omega
      rw [hbusy start h1 hlt]
      rw [wrap8_eq_self (by omega) (by omega)]
      rw [ih (start + 1) (by omega) (by omega) (by omega)]
      have hk : (m - start).toNat = (m - (start + 1)).toNat + 1 := by omega
      rw [hk]
      simp [ascFail]

/-- When every node in range is busy, the scan walks ascending from start to
the end of the range and reports exhaustion, recording one failed attempt per
index. Requires a node count of at most 126 so the i8 counter never wraps. -/
theorem scanNodes_exhausted (env : Env) (r d : String) (nodes : Int)
    (hn : nodes ≤ 126)
    (hopen : ∀ i : Int, 1 ≤ i → i ≤ nodes →
      env.openLockOk (nodeLockPath r d i) = true)
    (hbusy : ∀ i : Int, 1 ≤ i → i ≤ nodes →
      tryLockExclusive (env.locks (nodeLockPath r d i)) = none) :
    ∀ (fuel : Nat) (start : Int), 1 ≤ start → (nodes + 1 - start).toNat < fuel →
      scanNodes env r d nodes fuel start =
        .exhausted (ascFail r d (nodes + 1 - start).toNat start) := by
  intro fuel
  induction fuel with
  | zero => intro start _ h2; omega
  | succ f ih =>
    intro start h1 h2
    rw [scanNodes]
    by_cases hsn : start ≤ nodes
    · rw [if_pos hsn]
      simp only [hopen start h1 hsn, if_true]
      rw [hbusy start h1 hsn]
      rw [wrap8_eq_self (by omega) (by omega)]
      rw [ih (start + 1) (by omega) (by omega)]
      have hk : (nodes + 1 - start).toNat = (nodes + 1 - (start + 1)).toNat + 1 := by
        omega
      rw [hk]
      simp [ascFail]
    · rw [if_neg hsn]
      have hk : (nodes + 1 - start).toNat = 0 := by omega
      rw [hk]
      simp [ascFail]

/-- Every event in the trace of a successful scan is a lock-file open or a
non-blocking exclusive attempt; in particular the scan performs no unlock, no
directory operation, no file write and no subprocess step. -/
theorem scanNodes_found_trace_shape (env : Env) (r d : String) (nodes : Int) :
    ∀ (fuel : Nat) (start m : Int) (tr : List Event),
      scanNodes env r d nodes fuel start = .found m tr →
      ∀ e ∈ tr, (∃ p, e = .openLock p) ∨ ∃ p b, e = .tryExclusive p b := by
  intro fuel
  induction fuel with
  | zero =>
    intro start m tr h
    rw [scanNodes] at h
    exact absurd h (by simp)
  | succ f ih =>
    intro start m tr h e he
    rw [scanNodes] at h
    by_cases hsn : start ≤ nodes
    · rw [if_pos hsn] at h
      by_cases hop : env.openLockOk (nodeLockPath r d start) = true
      · simp only [hop, if_true] at h
        cases hx : tryLockExclusive (env.locks (nodeLockPath r d start)) with
        | some l =>
          rw [hx] at h
          cases h
          simp only [List.mem_cons, List.mem_singleton] at he
          rcases he with he | he | he
          · exact Or.inl ⟨_, he⟩
          · exact Or.inr ⟨_, _, he⟩
          · exact absurd he (by simp)
        | none =>
          rw [hx] at h
          cases hrec : scanNodes env r d nodes f (wrap8 (start + 1)) with
          | found n tr2 =>
            rw [hrec] at h
            cases h
            simp only [List.mem_cons] at he
            rcases he with he | he | he
            · exact Or.inl ⟨_, he⟩
            · exact Or.inr ⟨_, _, he⟩
            · exact ih _ _ _ hrec e he
          | exhausted tr2 => rw [hrec] at h; exact absurd h (by simp)
          | openFail q tr2 => rw [hrec] at h; exact absurd h (by simp)
          | fuelOut tr2 => rw [hrec] at h; exact absurd h (by simp)
      · simp only [hop, if_false] at h
        exact absurd h (by simp)
    · rw [if_neg hsn] at h
      exact absurd h (by simp)

/-- The trace of a sequenced step is its own events followed by the
continuation's trace when the step succeeds, and just its own events when it
fails. -/
theorem stepThen_snd (ev : List Event) (ok : Bool) (e : Err)
    (k : Except Err Unit × List Event) :
    (stepThen ev ok e k).2 = ev ++ if ok then k.2 else [] := by
  cases ok <;> simp [stepThen]

/-- Taking the second component commutes with an if-then-else on pairs. -/
theorem prodSnd_ite {α β : Type} (c : Prop) [Decidable c] (a b : α × β) :
    (if c then a else b).2 = if c then a.2 else b.2 := by
  split <;> rfl

/-- C10: for every door whose configured node count is zero or negative (the
i8 deserializer accepts any such value), a launch that successfully acquires
the shared door lock attempts no node lock at all and always fails with the
all-nodes-busy error. -/
theorem C10_nonpositive_nodes (cfg : Config) (env : Env) (args : LaunchArgs)
    (door : DoorCfg) (user0 : UserT) (ep : String) (st : LockSt)
    (hdoor : cfg.doors args.door = some door)
    (huser : env.currentUser = some user0)
    (hsw : args.user = none)
    (heng : env.engine = some ep)
    (hcr : env.createDirOk cfg.rundir = true)
    (holk : env.openLockOk (doorLockPath cfg.rundir args.door) = true)
    (hsh : tryLockShared (env.locks (doorLockPath cfg.rundir args.door)) = some st)
    (hn : door.nodes ≤ 0) :
    launch cfg env args =
      (.error (.allNodesBusy args.door),
        [.createDirAll cfg.rundir, .openLock (doorLockPath cfg.rundir args.door),
         .tryShared (doorLockPath cfg.rundir args.door) true]) ∧
    ∀ p b, Event.tryExclusive p b ∉ (launch cfg env args).2 := by
  have hscan := scanNodes_exhausted env cfg.rundir args.door door.nodes (by omega)
      (fun i h1 h2 => absurd h2 (by omega)) (fun i h1 h2 => absurd h2 (by omega))
      300 1 le_rfl (by omega)
  have hk : (door.nodes + 1 - 1).toNat = 0 := by omega
  rw [hk] at hscan
  simp only [ascFail] at hscan
  have hL : launch cfg env args =
      (.error (.allNodesBusy args.door),
        [.createDirAll cfg.rundir, .openLock (doorLockPath cfg.rundir args.door),
         .tryShared (doorLockPath cfg.rundir args.door) true]) := by
    simp [launch, hdoor, huser, hsw, heng, stepThen, hcr, holk, hsh, hscan]
  refine ⟨hL, ?_⟩
  rw [hL]
  intro p b
  simp

/-- C10 witness: the zero-node door tw under the all-free environment. -/
theorem C10_witness :
    baseEnv.currentUser = some userS ∧ doorZ.nodes ≤ 0 ∧
    launch cfgA baseEnv argsTw =
      (.error (.allNodesBusy "tw"),
        [.createDirAll "run", .openLock (doorLockPath "run" "tw"),
         .tryShared (doorLockPath "run" "tw") true]) :=
  ⟨rfl, by decide,
    (C10_nonpositive_nodes cfgA baseEnv argsTw doorZ userS "/usr/bin/podman"
      (.shared 1) rfl rfl rfl rfl rfl rfl rfl (by decide)).1⟩

/-- C1 (amended): for a door with at most 126 nodes, launch scans node
indices ascending from 1 to the configured count, attempting a non-blocking
exclusive lock on each index's lock file; the first free index is always the
one claimed (so a lower-numbered free node always wins), and when every index
in range is busy launch fails with the all-nodes-busy error. At the maximum
i8 node count 127 this breaks down, because the i8 loop counter overflows
instead of leaving the range: see the counterexample. -/
theorem C1_node_scan_ascending (cfg : Config) (env : Env) (args : LaunchArgs)
    (door : DoorCfg) (user0 : UserT) (ep : String) (st : LockSt)
    (hdoor : cfg.doors args.door = some door)
    (huser : env.currentUser = some user0)
    (hsw : args.user = none)
    (heng : env.engine = some ep)
    (hcr : env.createDirOk cfg.rundir = true)
    (holk : env.openLockOk (doorLockPath cfg.rundir args.door) = true)
    (hsh : tryLockShared (env.locks (doorLockPath cfg.rundir args.door)) = some st)
    (hn : door.nodes ≤ 126)
    (hopen : ∀ i : Int, 1 ≤ i → i ≤ door.nodes →
      env.openLockOk (nodeLockPath cfg.rundir args.door i) = true) :
    ((∀ i : Int, 1 ≤ i → i ≤ door.nodes →
        tryLockExclusive (env.locks (nodeLockPath cfg.rundir args.door i)) = none) →
      launch cfg env args =
        (.error (.allNodesBusy args.door),
          [.createDirAll cfg.rundir, .openLock (doorLockPath cfg.rundir args.door),
           .tryShared (doorLockPath cfg.rundir args.door) true]
          ++ ascFail cfg.rundir args.door door.nodes.toNat 1)) ∧
    (∀ m : Int, 1 ≤ m → m ≤ door.nodes →
      env.locks (nodeLockPath cfg.rundir args.door m) = .free →
      (∀ i : Int, 1 ≤ i → i < m →
        tryLockExclusive (env.locks (nodeLockPath cfg.rundir args.door i)) = none) →
      launch cfg env args =
        ((launchBody cfg env args door user0 m).1,
          [.createDirAll cfg.rundir, .openLock (doorLockPath cfg.rundir args.door),
           .tryShared (doorLockPath cfg.rundir args.door) true]
          ++ ascFail cfg.rundir args.door (m - 1).toNat 1
          ++ [.openLock (nodeLockPath cfg.rundir args.door m),
              .tryExclusive (nodeLockPath cfg.rundir args.door m) true]
          ++ (launchBody cfg env args door user0 m).2)) := by
  constructor
  · intro hbusy
    have hscan := scanNodes_exhausted env cfg.rundir args.door door.nodes hn
      hopen hbusy 300 1 le_rfl (by omega)
    have hk : (door.nodes + 1 - 1).toNat = door.nodes.toNat := by omega
    rw [hk] at hscan
    simp [launch, hdoor, huser, hsw, heng, stepThen, hcr, holk, hsh, hscan]
  · intro m hm1 hmn hfree hbusy
    have hscan := scanNodes_found env cfg.rundir args.door door.nodes m hm1 hmn hn
      (fun i h1 h2 => hopen i h1 (le_trans h2 hmn)) hbusy hfree 300 1 le_rfl
      (by omega) (by omega)
    simp [launch, hdoor, huser, hsw, heng, stepThen, hcr, holk, hsh, hscan,
      List.append_assoc]

/-- C1 witness: with nodes 2 and 3 conceptually busy reduced to the two-node
door lord where node 1 is free, the first scan claim is node 1; and under the
all-busy environment the run fails with the all-nodes-busy error. -/
theorem C1_witness :
    env127.locks (nodeLockPath "run" "big" 1) = .exclusive ∧
    launch cfgA envAllBusy argsLord =
      (.error (.allNodesBusy "lord"),
        [.createDirAll "run", .openLock (doorLockPath "run" "lord"),
         .tryShared (doorLockPath "run" "lord") true]
        ++ ascFail "run" "lord" ((2 : Int)).toNat 1) :=
  ⟨rfl,
    (C1_node_scan_ascending cfgA envAllBusy argsLord doorA userS "/usr/bin/podman"
      (.shared 1) rfl rfl rfl rfl rfl rfl rfl (by decide)
      (fun i _ _ => rfl)).1
      (by
        intro i h1 h2
        have hi : i = 1 ∨ i = 2 := by
          have : doorA.nodes = 2 := rfl
          omega
        rcases hi with hi | hi <;> subst hi <;> rfl)⟩

set_option maxRecDepth 100000 in
/-- C1 counterexample: the claim fails at the maximum i8 node count. With the
127-node door and every in-range node lock held exclusively, the loop counter
(an i8) overflows past 127: under release-build wrap-around semantics the
scan continues at the phantom node index -128, whose fresh lock file is free,
so launch claims it and succeeds instead of failing with the all-nodes-busy
error (debug builds abort on the same overflow; neither build produces the
all-nodes-busy error). -/
theorem C1_counterexample :
    ((List.range 127).all fun k =>
      env127.locks (nodeLockPath "run" "big" ((k : Int) + 1)) == LockSt.exclusive) = true ∧
    (launch cfgA env127 argsBig).1 = .ok () ∧
    (launch cfgA env127 argsBig).1 ≠ .error (.allNodesBusy "big") := by
  have h : (launch cfgA env127 argsBig).1 = .ok () := rfl
  exact ⟨by decide, h, by rw [h]; simp⟩

/-- C2: a play session's shared door lock and a maintenance exclusive door
lock are never both held: an exclusive attempt fails while any shared holder
exists and a shared attempt fails while an exclusive holder exists; a launch
whose non-blocking shared attempt fails (maintenance holds the door lock
exclusively) terminates immediately with the door-busy error; a no-wait
maintenance invocation whose non-blocking exclusive attempt fails (players
hold the door lock shared) terminates immediately with its door-busy error. -/
theorem C2_door_lock_exclusion :
    (∀ n : Nat, tryLockExclusive (.shared n) = none) ∧
    (tryLockShared .exclusive = none) ∧
    (∀ (cfg : Config) (env : Env) (args : LaunchArgs) (door : DoorCfg)
        (user0 : UserT) (ep : String),
      cfg.doors args.door = some door →
      env.currentUser = some user0 →
      args.user = none →
      env.engine = some ep →
      env.createDirOk cfg.rundir = true →
      env.openLockOk (doorLockPath cfg.rundir args.door) = true →
      env.locks (doorLockPath cfg.rundir args.door) = .exclusive →
      launch cfg env args =
        (.error (.doorBusy args.door),
          [.createDirAll cfg.rundir, .openLock (doorLockPath cfg.rundir args.door),
           .tryShared (doorLockPath cfg.rundir args.door) false])) ∧
    (∀ (cfg : Config) (env : Env) (args : SysopArgs) (door : DoorCfg)
        (user0 : UserT) (ep command tmpl : String) (k : Nat),
      env.currentUser = some user0 →
      user0.is_sysop = true →
      env.engine = some ep →
      env.createDirOk cfg.rundir = true →
      env.openLockOk (doorLockPath cfg.rundir args.door) = true →
      args.nowait = true →
      env.locks (doorLockPath cfg.rundir args.door) = .shared k →
      sysop_command cfg env args door command (some tmpl) =
        (.error (.doorBusySysop args.door),
          [.createDirAll cfg.rundir, .openLock (doorLockPath cfg.rundir args.door),
           .tryExclusive (doorLockPath cfg.rundir args.door) false])) := by
  refine ⟨fun n => rfl, rfl, ?_, ?_⟩
  · intro cfg env args door user0 ep hdoor huser hsw heng hcr holk hexcl
    simp [launch, hdoor, huser, hsw, heng, stepThen, hcr, holk, hexcl,
      tryLockShared]
  · intro cfg env args door user0 ep command tmpl k huser husr heng hcr holk
      hnw hshk
    simp [sysop_command, huser, husr, heng, stepThen, hcr, holk, hnw, hshk,
      tryLockExclusive]

/-- C2 witness: with maintenance holding the lord door lock exclusively a
launch reports door-busy, and with a player holding it shared a no-wait
maintenance invocation reports its door-busy error. -/
theorem C2_witness :
    envMaint.locks (doorLockPath "run" "lord") = .exclusive ∧
    envPlayers.locks (doorLockPath "run" "lord") = .shared 1 ∧
    launch cfgA envMaint argsLord =
      (.error (.doorBusy "lord"),
        [.createDirAll "run", .openLock (doorLockPath "run" "lord"),
         .tryShared (doorLockPath "run" "lord") false]) ∧
    sysop_command cfgA envPlayers sargsLordNW doorA "configure" (some "CONFIG.EXE") =
      (.error (.doorBusySysop "lord"),
        [.createDirAll "run", .openLock (doorLockPath "run" "lord"),
         .tryExclusive (doorLockPath "run" "lord") false]) :=
  ⟨rfl, rfl,
    C2_door_lock_exclusion.2.2.1 cfgA envMaint argsLord doorA userS
      "/usr/bin/podman" rfl rfl rfl rfl rfl rfl rfl,
    C2_door_lock_exclusion.2.2.2 cfgA envPlayers sargsLordNW doorA userS
      "/usr/bin/podman" "configure" "CONFIG.EXE" 1 rfl rfl rfl rfl rfl rfl rfl⟩

/-- C6: a maintenance command (configure or nightly) from a non-sysop caller
fails with the permission error, and one whose door lacks the requested
template fails with the not-configured error, in both cases with an empty
effect trace — so before the door lock file is opened or any lock attempt is
made. -/
theorem C6_sysop_gate (cfg : Config) (env : Env) (args : SysopArgs)
    (door : DoorCfg) (user0 : UserT)
    (hdoor : cfg.doors args.door = some door)
    (huser : env.currentUser = some user0) :
    (user0.is_sysop = false →
      configure cfg env args = (.error .notSysop, []) ∧
      nightly cfg env args = (.error .notSysop, [])) ∧
    (user0.is_sysop = true → door.configure = none →
      configure cfg env args = (.error (.notConfigured "configure" args.door), [])) ∧
    (user0.is_sysop = true → door.nightly = none →
      nightly cfg env args = (.error (.notConfigured "nightly" args.door), [])) := by
  refine ⟨fun hns => ⟨?_, ?_⟩, fun hs hnc => ?_, fun hs hnn => ?_⟩
  · simp [configure, sysop_command, hdoor, huser, hns]
  · simp [nightly, sysop_command, hdoor, huser, hns]
  · simp [configure, sysop_command, hdoor, huser, hs, hnc]
  · simp [nightly, sysop_command, hdoor, huser, hs, hnn]

/-- C6 witness: the non-sysop bob is rejected with the permission error, and
the sysop alice gets the not-configured error for the lord door's missing
nightly template; both with an empty effect trace. -/
theorem C6_witness :
    userN.is_sysop = false ∧ doorA.nightly = none ∧
    configure cfgA envNonSysop sargsLordNW = (.error .notSysop, []) ∧
    nightly cfgA baseEnv sargsLordNW =
      (.error (.notConfigured "nightly" "lord"), []) :=
  ⟨rfl, rfl,
    ((C6_sysop_gate cfgA envNonSysop sargsLordNW doorA userN rfl rfl).1 rfl).1,
    (C6_sysop_gate cfgA baseEnv sargsLordNW doorA userS rfl rfl).2.2 rfl rfl⟩

/-- C3: on every successful node claim, and likewise for the maintenance
sysop workspace, a pre-existing workspace directory for the slot is deleted
in its entirety and recreated before any of the new session's files are
written: the trace puts the removal, then the recreation, strictly before
the first file write, and no removal or write occurs earlier. -/
theorem C3_workspace_reset :
    (∀ (cfg : Config) (env : Env) (args : LaunchArgs) (door : DoorCfg)
        (user0 : UserT) (ep : String) (st : LockSt) (m : Int) (str : List Event),
      cfg.doors args.door = some door →
      env.currentUser = some user0 →
      args.user = none →
      env.engine = some ep →
      env.createDirOk cfg.rundir = true →
      env.openLockOk (doorLockPath cfg.rundir args.door) = true →
      tryLockShared (env.locks (doorLockPath cfg.rundir args.door)) = some st →
      scanNodes env cfg.rundir args.door door.nodes 300 1 = .found m str →
      env.dirExists (nodeRundirPath cfg.rundir args.door m) = true →
      env.removeDirOk (nodeRundirPath cfg.rundir args.door m) = true →
      env.createDirOk (nodeRundirPath cfg.rundir args.door m) = true →
      ∃ pre rest, (launch cfg env args).2 =
          pre ++ [.removeDirAll (nodeRundirPath cfg.rundir args.door m),
                  .createDirAll (nodeRundirPath cfg.rundir args.door m),
                  .writeDos "door.sys" (nodeRundirPath cfg.rundir args.door m)]
            ++ rest ∧
        (∀ p, Event.removeDirAll p ∉ pre) ∧
        (∀ f d, Event.writeDos f d ∉ pre)) ∧
    (∀ (cfg : Config) (env : Env) (args : SysopArgs) (door : DoorCfg)
        (user0 : UserT) (ep command tmpl : String) (l : LockSt),
      env.currentUser = some user0 →
      user0.is_sysop = true →
      env.engine = some ep →
      env.createDirOk cfg.rundir = true →
      env.openLockOk (doorLockPath cfg.rundir args.door) = true →
      args.nowait = true →
      tryLockExclusive (env.locks (doorLockPath cfg.rundir args.door)) = some l →
      env.dirExists (sysopRundirPath cfg.rundir args.door) = true →
      env.removeDirOk (sysopRundirPath cfg.rundir args.door) = true →
      env.createDirOk (sysopRundirPath cfg.rundir args.door) = true →
      ∃ pre rest, (sysop_command cfg env args door command (some tmpl)).2 =
          pre ++ [.removeDirAll (sysopRundirPath cfg.rundir args.door),
                  .createDirAll (sysopRundirPath cfg.rundir args.door),
                  .writeDos "doorman.bat" (sysopRundirPath cfg.rundir args.door)]
            ++ rest ∧
        (∀ p, Event.removeDirAll p ∉ pre) ∧
        (∀ f d, Event.writeDos f d ∉ pre)) := by
  constructor
  · intro cfg env args door user0 ep st m str hdoor huser hsw heng hcr holk hsh
      hscan hde hrm hcr2
    obtain ⟨X, hX⟩ : ∃ X, (launchBody cfg env args door user0 m).2 =
        [.removeDirAll (nodeRundirPath cfg.rundir args.door m),
         .createDirAll (nodeRundirPath cfg.rundir args.door m),
         .writeDos "door.sys" (nodeRundirPath cfg.rundir args.door m)] ++ X := by
      simp only [launchBody, hde, if_true, stepThen_snd, hrm, hcr2, prodSnd_ite]
      exact ⟨_, rfl⟩
    refine ⟨Event.createDirAll cfg.rundir
        :: Event.openLock (doorLockPath cfg.rundir args.door)
        :: Event.tryShared (doorLockPath cfg.rundir args.door) true :: str,
      X, ?_, ?_, ?_⟩
    · simp [launch, hdoor, huser, hsw, heng, stepThen, hcr, holk, hsh, hscan, hX]
    · intro p hp
      simp only [List.mem_cons] at hp
      rcases hp with hp | hp | hp | hp
      · exact absurd hp (by simp)
      · exact absurd hp (by simp)
      · exact absurd hp (by simp)
      · rcases scanNodes_found_trace_shape env cfg.rundir args.door door.nodes
            300 1 m str hscan _ hp with ⟨q, hq⟩ | ⟨q, b, hq⟩ <;> simp at hq
    · intro f d hp
      simp only [List.mem_cons] at hp
      rcases hp with hp | hp | hp | hp
      · exact absurd hp (by simp)
      · exact absurd hp (by simp)
      · exact absurd hp (by simp)
      · rcases scanNodes_found_trace_shape env cfg.rundir args.door door.nodes
            300 1 m str hscan _ hp with ⟨q, hq⟩ | ⟨q, b, hq⟩ <;> simp at hq
  · intro cfg env args door user0 ep command tmpl l huser husr heng hcr holk
      hnw hlk hde hrm hcr2
    obtain ⟨X, hX⟩ : ∃ X, (sysop_command cfg env args door command (some tmpl)).2 =
        [.createDirAll cfg.rundir, .openLock (doorLockPath cfg.rundir args.door),
         .tryExclusive (doorLockPath cfg.rundir args.door) true,
         .removeDirAll (sysopRundirPath cfg.rundir args.door),
         .createDirAll (sysopRundirPath cfg.rundir args.door),
         .writeDos "doorman.bat" (sysopRundirPath cfg.rundir args.door)] ++ X := by
      simp only [sysop_command, huser, husr, if_true, heng, hnw, hlk, hde,
        stepThen_snd, hcr, holk, hrm, hcr2, prodSnd_ite]
      exact ⟨_, rfl⟩
    refine ⟨[.createDirAll cfg.rundir, .openLock (doorLockPath cfg.rundir args.door),
        .tryExclusive (doorLockPath cfg.rundir args.door) true], X, ?_, ?_, ?_⟩
    · rw [hX]; simp
    · intro p hp; simp at hp
    · intro f d hp; simp at hp

/-- C3 witness: under the environment where workspaces already exist, both a
launch of the lord door and a no-wait configure of it produce traces whose
removal and recreation of the slot workspace strictly precede the first file
write, with no earlier removal or write. -/
theorem C3_witness :
    envStale.dirExists (nodeRundirPath "run" "lord" 1) = true ∧
    (∃ pre rest, (launch cfgA envStale argsLord).2 =
        pre ++ [.removeDirAll (nodeRundirPath "run" "lord" 1),
                .createDirAll (nodeRundirPath "run" "lord" 1),
                .writeDos "door.sys" (nodeRundirPath "run" "lord" 1)] ++ rest ∧
      (∀ p, Event.removeDirAll p ∉ pre) ∧
      (∀ f d, Event.writeDos f d ∉ pre)) ∧
    (∃ pre rest,
      (sysop_command cfgA envStale sargsLordNW doorA "configure"
          (some "CONFIG.EXE")).2 =
        pre ++ [.removeDirAll (sysopRundirPath "run" "lord"),
                .createDirAll (sysopRundirPath "run" "lord"),
                .writeDos "doorman.bat" (sysopRundirPath "run" "lord")] ++ rest ∧
      (∀ p, Event.removeDirAll p ∉ pre) ∧
      (∀ f d, Event.writeDos f d ∉ pre)) :=
  ⟨rfl,
    C3_workspace_reset.1 cfgA envStale argsLord doorA userS "/usr/bin/podman"
      (.shared 1) 1 [.openLock (nodeLockPath "run" "lord" 1),
        .tryExclusive (nodeLockPath "run" "lord" 1) true]
      rfl rfl rfl rfl rfl rfl rfl rfl rfl rfl rfl,
    C3_workspace_reset.2 cfgA envStale sargsLordNW doorA userS "/usr/bin/podman"
      "configure" "CONFIG.EXE" .exclusive rfl rfl rfl rfl rfl rfl rfl rfl rfl rfl⟩

/-- C4: each orchestrator releases its lock as soon as the container is
confirmed started, not when the container exits. In a successful launch the
only unlock of the run is of the node lock, placed strictly after the
detached run subprocess waited and exited with status 0 and strictly before
the interactive exec attach; in a successful maintenance run the only unlock
is of the door lock, placed immediately after the container spawn and before
waiting for the child to finish. -/
theorem C4_unlock_timing :
    (∀ (cfg : Config) (env : Env) (args : LaunchArgs) (door : DoorCfg)
        (user0 : UserT) (ep cid : String) (st : LockSt) (m : Int)
        (str : List Event),
      cfg.doors args.door = some door →
      env.currentUser = some user0 →
      args.user = none →
      env.engine = some ep →
      env.createDirOk cfg.rundir = true →
      env.openLockOk (doorLockPath cfg.rundir args.door) = true →
      tryLockShared (env.locks (doorLockPath cfg.rundir args.door)) = some st →
      scanNodes env cfg.rundir args.door door.nodes 300 1 = .found m str →
      env.dirExists (nodeRundirPath cfg.rundir args.door m) = false →
      env.createDirOk (nodeRundirPath cfg.rundir args.door m) = true →
      env.writeDosOk "door.sys" (nodeRundirPath cfg.rundir args.door m) = true →
      env.renderOk door.launch = true →
      env.writeDosOk "doorman.bat" (nodeRundirPath cfg.rundir args.door m) = true →
      env.spawnOk = true →
      env.waitOk = true →
      env.runExitCode = some 0 →
      env.runStdout = some cid →
      env.unlockOk = true →
      env.execOk = true →
      (launch cfg env args).1 = .ok () ∧
      ∃ pre, (launch cfg env args).2 =
          pre ++ [.spawnRun true, .waitRun (some 0),
                  .unlock (nodeLockPath cfg.rundir args.door m), .execAttach cid] ∧
        ∀ q, Event.unlock q ∉ pre) ∧
    (∀ (cfg : Config) (env : Env) (args : SysopArgs) (door : DoorCfg)
        (user0 : UserT) (ep command tmpl : String) (l : LockSt),
      env.currentUser = some user0 →
      user0.is_sysop = true →
      env.engine = some ep →
      env.createDirOk cfg.rundir = true →
      env.openLockOk (doorLockPath cfg.rundir args.door) = true →
      args.nowait = true →
      tryLockExclusive (env.locks (doorLockPath cfg.rundir args.door)) = some l →
      env.dirExists (sysopRundirPath cfg.rundir args.door) = false →
      env.createDirOk (sysopRundirPath cfg.rundir args.door) = true →
      env.writeDosOk "doorman.bat" (sysopRundirPath cfg.rundir args.door) = true →
      env.spawnOk = true →
      env.unlockOk = true →
      env.childWaitOk = true →
      (sysop_command cfg env args door command (some tmpl)).1 = .ok () ∧
      ∃ pre, (sysop_command cfg env args door command (some tmpl)).2 =
          pre ++ [.spawnRun false, .unlock (doorLockPath cfg.rundir args.door),
                  .waitChild] ∧
        ∀ q, Event.unlock q ∉ pre) := by
  constructor
  · intro cfg env args door user0 ep cid st m str hdoor huser hsw heng hcr holk
      hsh hscan hde hcr2 hw1 hrd hw2 hsp hwt hec hso hul hex
    refine ⟨?_, ?_⟩
    · simp [launch, hdoor, huser, hsw, heng, stepThen, hcr, holk, hsh, hscan,
        launchBody, hde, hcr2, hw1, hrd, hw2, hsp, hwt, hec, hso, hul, hex]
    · refine ⟨[Event.createDirAll cfg.rundir,
          Event.openLock (doorLockPath cfg.rundir args.door),
          Event.tryShared (doorLockPath cfg.rundir args.door) true]
          ++ str
          ++ [.createDirAll (nodeRundirPath cfg.rundir args.door m),
              .writeDos "door.sys" (nodeRundirPath cfg.rundir args.door m),
              .writeDos "doorman.bat" (nodeRundirPath cfg.rundir args.door m)],
        ?_, ?_⟩
      · simp [launch, hdoor, huser, hsw, heng, stepThen, hcr, holk, hsh, hscan,
          launchBody, hde, hcr2, hw1, hrd, hw2, hsp, hwt, hec, hso, hul, hex]
      · intro q hq
        rcases List.mem_append.mp hq with hq | hq
        · rcases List.mem_append.mp hq with hq | hq
          · simp at hq
          · rcases scanNodes_found_trace_shape env cfg.rundir args.door door.nodes
                300 1 m str hscan _ hq with ⟨p, hp⟩ | ⟨p, b, hp⟩ <;> simp at hp
        · simp at hq
  · intro cfg env args door user0 ep command tmpl l huser husr heng hcr holk
      hnw hlk hde hcr2 hwb hsp hul hcw
    refine ⟨?_, ?_⟩
    · simp [sysop_command, huser, husr, heng, stepThen, hcr, holk, hnw, hlk,
        hde, hcr2, hwb, hsp, hul, hcw]
    · refine ⟨[.createDirAll cfg.rundir, .openLock (doorLockPath cfg.rundir args.door),
          .tryExclusive (doorLockPath cfg.rundir args.door) true,
          .createDirAll (sysopRundirPath cfg.rundir args.door),
          .writeDos "doorman.bat" (sysopRundirPath cfg.rundir args.door)],
        ?_, ?_⟩
      · simp [sysop_command, huser, husr, heng, stepThen, hcr, holk, hnw, hlk,
          hde, hcr2, hwb, hsp, hul, hcw]
      · intro q hq
        simp at hq

/-- C4 witness: the all-success environment on the lord door, for both a
launch (node lock released between the status-0 wait and the exec attach) and
a no-wait configure (door lock released between spawn and child wait). -/
theorem C4_witness :
    (launch cfgA baseEnv argsLord).1 = .ok () ∧
    (∃ pre, (launch cfgA baseEnv argsLord).2 =
        pre ++ [.spawnRun true, .waitRun (some 0),
                .unlock (nodeLockPath "run" "lord" 1), .execAttach "abc123"] ∧
      ∀ q, Event.unlock q ∉ pre) ∧
    (sysop_command cfgA baseEnv sargsLordNW doorA "configure" (some "CONFIG.EXE")).1
        = .ok () ∧
    (∃ pre, (sysop_command cfgA baseEnv sargsLordNW doorA "configure"
          (some "CONFIG.EXE")).2 =
        pre ++ [.spawnRun false, .unlock (doorLockPath "run" "lord"), .waitChild] ∧
      ∀ q, Event.unlock q ∉ pre) := by
  have h1 := C4_unlock_timing.1 cfgA baseEnv argsLord doorA userS
    "/usr/bin/podman" "abc123" (.shared 1) 1
    [.openLock (nodeLockPath "run" "lord" 1),
     .tryExclusive (nodeLockPath "run" "lord" 1) true]
    rfl rfl rfl rfl rfl rfl rfl rfl rfl rfl rfl rfl rfl rfl rfl rfl rfl rfl rfl
  have h2 := C4_unlock_timing.2 cfgA baseEnv sargsLordNW doorA userS
    "/usr/bin/podman" "configure" "CONFIG.EXE" .exclusive
    rfl rfl rfl rfl rfl rfl rfl rfl rfl rfl rfl rfl rfl
  exact ⟨h1.1, h1.2, h2.1, h2.2⟩

/-- C5: launch treats the container as ready only on exit status exactly 0:
any other exit code yields the fatal code-carrying launch-failure error, an
unknown exit status yields the unknown-status launch-failure error, and a
status-0 run whose standard output does not decode yields the decode error;
in every case the start was attempted exactly once (no retry). -/
theorem C5_exit_code_handling (cfg : Config) (env : Env) (args : LaunchArgs)
    (door : DoorCfg) (user0 : UserT) (ep : String) (st : LockSt) (m : Int)
    (str : List Event)
    (hdoor : cfg.doors args.door = some door)
    (huser : env.currentUser = some user0)
    (hsw : args.user = none)
    (heng : env.engine = some ep)
    (hcr : env.createDirOk cfg.rundir = true)
    (holk : env.openLockOk (doorLockPath cfg.rundir args.door) = true)
    (hsh : tryLockShared (env.locks (doorLockPath cfg.rundir args.door)) = some st)
    (hscan : scanNodes env cfg.rundir args.door door.nodes 300 1 = .found m str)
    (hde : env.dirExists (nodeRundirPath cfg.rundir args.door m) = false)
    (hcr2 : env.createDirOk (nodeRundirPath cfg.rundir args.door m) = true)
    (hw1 : env.writeDosOk "door.sys" (nodeRundirPath cfg.rundir args.door m) = true)
    (hrd : env.renderOk door.launch = true)
    (hw2 : env.writeDosOk "doorman.bat" (nodeRundirPath cfg.rundir args.door m) = true)
    (hsp : env.spawnOk = true)
    (hwt : env.waitOk = true) :
    (∀ c : Int, env.runExitCode = some c → c ≠ 0 →
      (launch cfg env args).1 = .error (.startFailedCode args.door c) ∧
      (launch cfg env args).2.count (Event.spawnRun true) = 1) ∧
    (env.runExitCode = none →
      (launch cfg env args).1 = .error (.startFailedUnknown args.door) ∧
      (launch cfg env args).2.count (Event.spawnRun true) = 1) ∧
    (env.runExitCode = some 0 → env.runStdout = none →
      (launch cfg env args).1 = .error .decodeFail ∧
      (launch cfg env args).2.count (Event.spawnRun true) = 1) := by
  have hstr : str.count (Event.spawnRun true) = 0 := by
    refine List.count_eq_zero.mpr fun hmem => ?_
    rcases scanNodes_found_trace_shape env cfg.rundir args.door door.nodes
        300 1 m str hscan _ hmem with ⟨p, hp⟩ | ⟨p, b, hp⟩ <;> simp at hp
  refine ⟨fun c hec hc => ⟨?_, ?_⟩, fun hec => ⟨?_, ?_⟩, fun hec hso => ⟨?_, ?_⟩⟩
  · simp [launch, hdoor, huser, hsw, heng, stepThen, hcr, holk, hsh, hscan,
      launchBody, hde, hcr2, hw1, hrd, hw2, hsp, hwt, hec, hc]
  · simp [launch, hdoor, huser, hsw, heng, stepThen, hcr, holk, hsh, hscan,
      launchBody, hde, hcr2, hw1, hrd, hw2, hsp, hwt, hec, hc,
      List.count_append, List.count_cons, hstr]
  · simp [launch, hdoor, huser, hsw, heng, stepThen, hcr, holk, hsh, hscan,
      launchBody, hde, hcr2, hw1, hrd, hw2, hsp, hwt, hec]
  · simp [launch, hdoor, huser, hsw, heng, stepThen, hcr, holk, hsh, hscan,
      launchBody, hde, hcr2, hw1, hrd, hw2, hsp, hwt, hec,
      List.count_append, List.count_cons, hstr]
  · simp [launch, hdoor, huser, hsw, heng, stepThen, hcr, holk, hsh, hscan,
      launchBody, hde, hcr2, hw1, hrd, hw2, hsp, hwt, hec, hso]
  · simp [launch, hdoor, huser, hsw, heng, stepThen, hcr, holk, hsh, hscan,
      launchBody, hde, hcr2, hw1, hrd, hw2, hsp, hwt, hec, hso,
      List.count_append, List.count_cons, hstr]

/-- C5 witness: on the lord door with every earlier step succeeding, exit
code 5 gives the code-5 failure, an unknown status gives the unknown-status
failure, undecodable stdout after status 0 gives the decode failure, and in
each run the start was attempted exactly once. -/
theorem C5_witness :
    envExit5.runExitCode = some 5 ∧
    (launch cfgA envExit5 argsLord).1 = .error (.startFailedCode "lord" 5) ∧
    (launch cfgA envExit5 argsLord).2.count (Event.spawnRun true) = 1 ∧
    (launch cfgA envExitUnknown argsLord).1 = .error (.startFailedUnknown "lord") ∧
    (launch cfgA envExitUnknown argsLord).2.count (Event.spawnRun true) = 1 ∧
    (launch cfgA envBadStdout argsLord).1 = .error .decodeFail ∧
    (launch cfgA envBadStdout argsLord).2.count (Event.spawnRun true) = 1 := by
  have h1 := (C5_exit_code_handling cfgA envExit5 argsLord doorA userS
    "/usr/bin/podman" (.shared 1) 1
    [.openLock (nodeLockPath "run" "lord" 1),
     .tryExclusive (nodeLockPath "run" "lord" 1) true]
    rfl rfl rfl rfl rfl rfl rfl rfl rfl rfl rfl rfl rfl rfl rfl).1 5 rfl
    (by decide)
  have h2 := (C5_exit_code_handling cfgA envExitUnknown argsLord doorA userS
    "/usr/bin/podman" (.shared 1) 1
    [.openLock (nodeLockPath "run" "lord" 1),
     .tryExclusive (nodeLockPath "run" "lord" 1) true]
    rfl rfl rfl rfl rfl rfl rfl rfl rfl rfl rfl rfl rfl rfl rfl).2.1 rfl
  have h3 := (C5_exit_code_handling cfgA envBadStdout argsLord doorA userS
    "/usr/bin/podman" (.shared 1) 1
    [.openLock (nodeLockPath "run" "lord" 1),
     .tryExclusive (nodeLockPath "run" "lord" 1) true]
    rfl rfl rfl rfl rfl rfl rfl rfl rfl rfl rfl rfl rfl rfl rfl).2.2 rfl rfl
  exact ⟨rfl, h1.1, h1.2, h2.1, h2.2, h3.1, h3.2⟩

/-- C7 (amended): the status reader excludes from its result list any entry
whose labels are present but lack the doorman.user or doorman.door key: for
the podman shape this requires the labels object to exist and the creation
timestamp to convert (both are unwrapped first), and for the docker shape it
requires the label string to scan without a panic (any doorman.node value
must parse as an i8, which is unwrapped inside the label loop); such entries
are skipped silently, leaving exactly the parse of the remaining entries. A
podman entry with no labels object at all instead panics: see the
counterexample. -/
theorem C7_missing_label_skip :
    (∀ (fromTs : Int → Option Int) (c : PodmanPS) (rest : List PodmanPS)
        (L : List (String × String)) (t : Int),
      c.labels = some L →
      fromTs c.created_ts = some t →
      (List.lookup "doorman.user" L = none ∨ List.lookup "doorman.door" L = none) →
      parse_podman fromTs (some (c :: rest)) = parse_podman fromTs (some rest)) ∧
    (∀ (dateOf : String → Option Int) (p : DockerPS)
        (rest : List (Option DockerPS)) (ls : LabelScan),
      scanDockerLabels (splitComma p.labels) ⟨none, none, none, none⟩ = .ok ls →
      (ls.user = none ∨ ls.door = none) →
      parse_docker dateOf (some p :: rest) = parse_docker dateOf rest) := by
  constructor
  · intro fromTs c rest L t hlab hts hmiss
    rcases hmiss with hu | hd
    · simp [parse_podman, parse_podman_list, parse_podman_container, hlab, hts, hu]
    · cases hlu : List.lookup "doorman.user" L <;>
        simp [parse_podman, parse_podman_list, parse_podman_container, hlab,
          hts, hlu, hd]
  · intro dateOf p rest ls hscan hmiss
    cases hdt : dateOf p.created_str with
    | none => simp [parse_docker, parse_docker_line, hscan, hdt]
    | some t =>
      rcases hmiss with hu | hd
      · simp [parse_docker, parse_docker_line, hscan, hdt, hu]
      · cases hlu : ls.user <;>
          simp [parse_docker, parse_docker_line, hscan, hdt, hlu, hd]

/-- C7 witness: a podman entry whose present label map lacks doorman.user and
a docker line whose labels carry only door and node are both skipped, leaving
the empty session list. -/
theorem C7_witness :
    podNoUser.labels = some [("doorman.door", "lord")] ∧
    parse_podman tsId (some [podNoUser]) = .ok [] ∧
    parse_docker (fun _ => some 3) [some dockNoUser] = .ok [] :=
  ⟨rfl,
    C7_missing_label_skip.1 tsId podNoUser [] [("doorman.door", "lord")] 7
      rfl rfl (Or.inl rfl),
    C7_missing_label_skip.2 (fun _ => some 3) dockNoUser []
      ⟨none, some "lord", some 2, none⟩ rfl (Or.inl rfl)⟩

/-- C7 counterexample: a podman listing entry with no labels object at all —
which certainly lacks the doorman.user and doorman.door keys — is not skipped
silently: the unconditional unwrap of the labels Option panics, so the status
query crashes instead of returning a result list without the entry. -/
theorem C7_counterexample :
    parse_podman tsId (some [podNoLabels]) = .panic ∧
    parse_podman tsId (some [podNoLabels]) ≠ .ok [] := by
  exact ⟨rfl, by decide⟩

/-- C8 (amended): when rootless detection is reached (podman engine, no
explicit rootless override in the configuration), any failure to run the info
command or to parse the rootless boolean is not treated as not-rootless: the
error is unwrapped and engine construction panics. An explicit override skips
detection entirely, and a non-podman engine yields not-rootless without
error. -/
theorem C8_detection_failure_panics (env : DetectEnv) (path : String) :
    (is_rootless_podman env path = .error () →
      ContainerEngine.new env (some path) none = .panic) ∧
    (∀ b : Bool, ContainerEngine.new env (some path) (some b) = .ok ⟨path, b⟩) ∧
    (is_podman env path = .ok false →
      ContainerEngine.new env (some path) none = .ok ⟨path, false⟩) := by
  refine ⟨fun h => ?_, fun b => rfl, fun h => ?_⟩
  · simp [ContainerEngine.new, h]
  · simp [ContainerEngine.new, is_rootless_podman, h]

/-- C8 witness: a podman binary whose info output does not parse makes
rootless detection fail, and engine construction panics on the unwrap. -/
theorem C8_witness :
    is_rootless_podman detPodmanBadInfo "/usr/bin/podman" = .error () ∧
    ContainerEngine.new detPodmanBadInfo (some "/usr/bin/podman") none = .panic :=
  ⟨rfl,
    (C8_detection_failure_panics detPodmanBadInfo "/usr/bin/podman").1 rfl⟩

/-- C8 counterexample: the claim as stated is false — with a podman engine
whose info output fails to parse, construction does not degrade to a
not-rootless engine; it panics, blocking engine construction at startup. -/
theorem C8_counterexample :
    ContainerEngine.new detPodmanBadInfo (some "/usr/bin/podman") none = .panic ∧
    ContainerEngine.new detPodmanBadInfo (some "/usr/bin/podman") none ≠
      .ok ⟨"/usr/bin/podman", false⟩ := by
  exact ⟨rfl, by decide⟩

/-- C9 (amended): engine detection runs the candidate binary with a version
flag and classifies it as podman exactly when the case-insensitized output
starts with the podman prefix; every other output — including one starting
with the docker prefix and one starting with neither — is treated as
non-podman, and there is no docker-prefix check and no unknown-engine
failure: construction succeeds as a non-rootless engine. -/
theorem C9_podman_only_detection (env : DetectEnv) (path s : String)
    (hv : env.versionOut path = some s) :
    is_podman env path = .ok (strStarts (strUpper s) "PODMAN ") ∧
    (strStarts (strUpper s) "PODMAN " = false →
      ContainerEngine.new env (some path) none = .ok ⟨path, false⟩) := by
  refine ⟨by simp [is_podman, hv], fun h => ?_⟩
  simp [ContainerEngine.new, is_rootless_podman, is_podman, hv, h]

/-- C9 witness: a binary reporting a version string with neither engine
prefix is classified as non-podman and construction succeeds. -/
theorem C9_witness :
    detMystery.versionOut "/e" = some "mystery-engine 1.0" ∧
    is_podman detMystery "/e" = .ok false ∧
    ContainerEngine.new detMystery (some "/e") none = .ok ⟨"/e", false⟩ := by
  have h := C9_podman_only_detection detMystery "/e" "mystery-engine 1.0" rfl
  exact ⟨rfl, h.1, h.2 rfl⟩

/-- C9 counterexample: on version output starting with neither the podman nor
the docker prefix, the code does not fail with an unknown-engine error as the
claim states: detection reports non-podman and engine construction succeeds. -/
theorem C9_counterexample :
    strStarts (strUpper "mystery-engine 1.0") "PODMAN " = false ∧
    strStarts (strUpper "mystery-engine 1.0") "DOCKER " = false ∧
    ContainerEngine.new detMystery (some "/e") none = .ok ⟨"/e", false⟩ := by
  exact ⟨by decide, by decide, rfl⟩

end Doorman
